import Mathlib

/-!
Shallow embedding of the log-streaming and retry protocol of
`fastapi_cloud_cli/utils/api.py`:

* the build-log line models (`BuildLogLineMessage`, `BuildLogLineGeneric`)
  and the pydantic discriminated-union validation (`BuildLogAdapter`),
* `_parse_log_line`,
* the `attempt` context manager and the `attempts` retry decorator,
* the `stream_build_logs` reconnect loop (cursor `last_id`, `last_id`
  query parameter, terminal events, `timeout` reconnects),
* the `stream_app_logs` line loop (heartbeat filtering, inline errors,
  `AppLogEntry` validation).

Network input is modelled as scripted data: a connection is the HTTP
status the server answers with together with the list of lines the
response body delivers before the server closes the connection; a raw
line is either blank, invalid JSON, or a JSON value (the result of
decoding the line's text).  Sleeps are recorded in traces instead of
being performed.
-/

namespace FastapiCloudStreaming

/-- JSON values, the result of `json.loads` on one line of a response body. -/
inductive JsonValue where
  | null
  | bool (b : Bool)
  | num (n : Int)
  | str (s : String)
  | arr (elems : List JsonValue)
  | obj (fields : List (String × JsonValue))

/-- Dictionary lookup on a decoded JSON object (`data.get(key)`):
first binding of the key wins. -/
def getField (fields : List (String × JsonValue)) (key : String) : Option JsonValue :=
  match fields with
  | [] => none
  | (k, v) :: rest => if k = key then some v else getField rest key

/-- One raw line of a streaming response body, as seen after the blank
test (`not line or not line.strip()`) and JSON decoding: `blank` is an
empty or whitespace-only line, `invalid` is text that is not valid JSON
(`json.JSONDecodeError`), `json` is a decoded JSON value. -/
inductive RawLine where
  | blank
  | invalid (s : String)
  | json (j : JsonValue)

/-- Discriminator values of `BuildLogLineGeneric.type`
(`Literal["complete", "failed", "timeout", "heartbeat"]`). -/
inductive GenericLogType where
  | complete
  | failed
  | timeout
  | heartbeat
deriving DecidableEq

/-- String form of a generic discriminator value. -/
def GenericLogType.toTypeString : GenericLogType → String
  | .complete => "complete"
  | .failed => "failed"
  | .timeout => "timeout"
  | .heartbeat => "heartbeat"

/-- `BuildLogLineMessage`: `type: Literal["message"]`, a required
`message: str` and an optional `id: Optional[str]`. -/
structure BuildLogLineMessage where
  message : String
  id : Option String
deriving DecidableEq

/-- `BuildLogLineGeneric`: one of the four non-message discriminators
with an optional `id: Optional[str]`. -/
structure BuildLogLineGeneric where
  type : GenericLogType
  id : Option String
deriving DecidableEq

/-- `BuildLogLine = Union[BuildLogLineMessage, BuildLogLineGeneric]`. -/
inductive BuildLogLine where
  | message (m : BuildLogLineMessage)
  | generic (g : BuildLogLineGeneric)
deriving DecidableEq

/-- The `id` attribute of a build-log line. -/
def BuildLogLine.id : BuildLogLine → Option String
  | .message m => m.id
  | .generic g => g.id

/-- The `type` attribute of a build-log line, as the string the code
compares against (`log_line.type == "message"`, etc.). -/
def BuildLogLine.type : BuildLogLine → String
  | .message _ => "message"
  | .generic g => g.type.toTypeString

/-- Validation of the optional `id` field (pydantic `Optional[str] = None`):
absent or JSON null gives `None`, a JSON string gives that string, any
other JSON value is a validation error. -/
def validateOptionalId (fields : List (String × JsonValue)) : Option (Option String) :=
  match getField fields "id" with
  | none => some none
  | some .null => some none
  | some (.str s) => some (some s)
  | some _ => none

/-- `BuildLogAdapter.validate_json` on a decoded JSON value: a
discriminated union keyed by the required `type` field; the `message`
variant additionally requires a `message` string field; unknown or
missing discriminators, non-object payloads and ill-typed fields are
validation errors (`none`). -/
def validate_build_log_line (j : JsonValue) : Option BuildLogLine :=
  match j with
  | .obj fields =>
    match getField fields "type" with
    | some (.str "message") =>
      match getField fields "message", validateOptionalId fields with
      | some (.str m), some i => some (.message ⟨m, i⟩)
      | _, _ => none
    | some (.str "complete") => (validateOptionalId fields).map fun i => .generic ⟨.complete, i⟩
    | some (.str "failed") => (validateOptionalId fields).map fun i => .generic ⟨.failed, i⟩
    | some (.str "timeout") => (validateOptionalId fields).map fun i => .generic ⟨.timeout, i⟩
    | some (.str "heartbeat") => (validateOptionalId fields).map fun i => .generic ⟨.heartbeat, i⟩
    | _ => none
  | _ => none

/-- `APIClient._parse_log_line`: validate the line via `BuildLogAdapter`,
turning `ValidationError` and `json.JSONDecodeError` into `None`. -/
def parse_log_line : RawLine → Option BuildLogLine
  | .blank => none
  | .invalid _ => none
  | .json j => validate_build_log_line j

/-- Python truthiness of an `Optional[str]`: `None` and `""` are falsy. -/
def truthy : Option String → Bool
  | none => false
  | some s => !s.isEmpty

/-- The cursor update `if log_line.id: last_id = log_line.id`. -/
def update_last_id (last_id : Option String) (event_id : Option String) : Option String :=
  if truthy event_id then event_id else last_id

/-- The query parameter `params = {"last_id": last_id} if last_id else None`:
`some c` means the request carries `last_id=c`, `none` means no params. -/
def params_for (last_id : Option String) : Option String :=
  if truthy last_id then last_id else none

/-- How the `for line in response.iter_lines()` loop of
`stream_build_logs` ended. -/
inductive LineLoopExit where
  | terminal
  | timeoutBreak
  | exhausted
deriving DecidableEq

/-- Result of running the line loop of `stream_build_logs` over one
connection's lines: the cursor on exit, the events yielded, and how the
loop ended. -/
structure LineLoopResult where
  last_id : Option String
  yielded : List BuildLogLine
  exit : LineLoopExit
deriving DecidableEq

/-- The `for line in response.iter_lines()` loop of `stream_build_logs`:
skip blank lines, skip lines `_parse_log_line` rejects, advance the
cursor on truthy ids, yield `message` events, yield a `complete`/`failed`
event and return, `break` on a `timeout` event; falling off the end of
the lines is the for-else branch (connection closed without terminal
state). -/
def process_lines (last_id : Option String) : List RawLine → LineLoopResult
  | [] => ⟨last_id, [], .exhausted⟩
  | l :: rest =>
    match parse_log_line l with
    | none => process_lines last_id rest
    | some ev =>
      let last_id2 := update_last_id last_id ev.id
      if ev.type == "message" then
        let r := process_lines last_id2 rest
        ⟨r.last_id, ev :: r.yielded, r.exit⟩
      else if ev.type == "complete" || ev.type == "failed" then
        ⟨last_id2, [ev], .terminal⟩
      else if ev.type == "timeout" then
        ⟨last_id2, [], .timeoutBreak⟩
      else
        process_lines last_id2 rest

/-- One scripted connection: the HTTP status of the response
(`response.raise_for_status()` raises when it is at least 400), the
response body text when readable (used for the 4xx error detail), and
the lines the body delivers before the server closes the connection. -/
structure ConnSpec where
  status : Nat
  bodyText : Option String
  lines : List RawLine

/-- How one run of the `while True` reconnect loop of
`stream_build_logs` ended: a terminal event was yielded (the generator
returned), the connection closed without terminal state
(`httpx.NetworkError` raised), `raise_for_status` raised
(`httpx.HTTPStatusError`), or the script ran out of connections (a
model artefact: the real loop would open another request). -/
inductive BuildExit where
  | terminal
  | netError
  | httpError (status : Nat) (bodyText : Option String)
  | scriptEnded
deriving DecidableEq

/-- Trace of one attempt of `stream_build_logs`: the `last_id` query
parameter of each request in order, the events yielded, the fixed
`time.sleep(0.5)` reconnect sleeps (in milliseconds), and how the
attempt ended. -/
structure BuildStreamTrace where
  requests : List (Option String)
  yielded : List BuildLogLine
  reconnectSleepsMs : List Nat
  exit : BuildExit
deriving DecidableEq

/-- The `while True` loop of `stream_build_logs`, run against a script
of connections: each iteration opens a request carrying
`params_for last_id`, checks the status, and runs the line loop; a
`timeout` break sleeps 500 ms and reconnects with the advanced cursor;
line exhaustion raises a network error; a terminal event returns. -/
def run_build_stream (last_id : Option String) : List ConnSpec → BuildStreamTrace
  | [] => ⟨[], [], [], .scriptEnded⟩
  | c :: rest =>
    if 400 ≤ c.status then
      ⟨[params_for last_id], [], [], .httpError c.status c.bodyText⟩
    else
      match process_lines last_id c.lines with
      | ⟨_, yielded, .terminal⟩ =>
        ⟨[params_for last_id], yielded, [], .terminal⟩
      | ⟨_, yielded, .exhausted⟩ =>
        ⟨[params_for last_id], yielded, [], .netError⟩
      | ⟨last_id2, yielded, .timeoutBreak⟩ =>
        let t := run_build_stream last_id2 rest
        ⟨params_for last_id :: t.requests, yielded ++ t.yielded,
          500 :: t.reconnectSleepsMs, t.exit⟩

/-- One attempt of the decorated `stream_build_logs`: each call of the
generator function starts with `last_id = None`. -/
def stream_build_logs_attempt (script : List ConnSpec) : BuildStreamTrace :=
  run_build_stream none script

/-- A wire line `{"type": "message", "message": m}` with an optional
`"id"` string field. -/
def message_line (m : String) (i : Option String) : RawLine :=
  .json (.obj ([("type", .str "message"), ("message", .str m)] ++
    (match i with
     | some s => [("id", .str s)]
     | none => [])))

/-- A wire line `{"type": t}` with an optional `"id"` string field. -/
def generic_line (t : String) (i : Option String) : RawLine :=
  .json (.obj ([("type", .str t)] ++
    (match i with
     | some s => [("id", .str s)]
     | none => [])))

/-- `STREAM_LOGS_MAX_RETRIES = 3`. -/
def STREAM_LOGS_MAX_RETRIES : Nat := 3

/-- `STREAM_LOGS_TIMEOUT = timedelta(minutes=5)`, in seconds. -/
def STREAM_LOGS_TIMEOUT_SECONDS : ℚ := 300

/-- `backoff_seconds = min(2 ** attempt_number, 30)` in the `attempt`
context manager's `_backoff`. -/
def backoff_seconds (attempt_number : Nat) : Nat :=
  min (2 ^ attempt_number) 30

/-- The message of the `StreamLogError` the `attempt` context manager
raises for a non-5xx `httpx.HTTPStatusError`: the response body text, or
a placeholder when the body cannot be read. -/
def http_error_message (status : Nat) (bodyText : Option String) : String :=
  let error_detail := bodyText.getD "(response body unavailable)"
  s!"HTTP {status}: {error_detail}"

/-- How one attempt (one run of the wrapped generator, inside the
`attempt` context manager) turns out: the generator is exhausted
normally, it raises a network-layer error (`httpx.TimeoutException`,
`httpx.NetworkError`, `httpx.RemoteProtocolError`), it raises
`httpx.HTTPStatusError` with a status and a readable-or-not body, or it
raises `StreamLogError` itself.  `events` are the items the generator
yielded before finishing or raising (they reach the caller through
`yield from`). -/
inductive AttemptOutcome (T : Type) where
  | completed (events : List T)
  | netError (events : List T)
  | httpStatusError (events : List T) (status : Nat) (bodyText : Option String)
  | streamLogRaise (events : List T) (msg : String)

/-- How a run of the `attempts` wrapper ends: the wrapped generator
completed (`return` after `yield from`), a `StreamLogError` propagated,
the wall-clock check raised `TimeoutError`, or the for loop was
exhausted and `TooManyRetriesError` was raised. -/
inductive DriverResult where
  | success
  | streamLogError (msg : String)
  | timedOut
  | tooManyRetries
deriving DecidableEq

/-- Trace of a run of the `attempts` wrapper: everything yielded to the
caller, the backoff sleeps performed (in seconds, in order), how many
attempts were entered, and the final result. -/
structure DriverRun (T : Type) where
  events : List T
  backoffSleeps : List Nat
  attemptsMade : Nat
  result : DriverResult
deriving DecidableEq

/-- The `for attempt_number in range(total_attempts)` loop of the
`attempts` wrapper, starting at attempt `k` with `remaining` loop
iterations left: check the wall-clock budget (`elapsedAt k` models
`time.monotonic() - start` at the top of iteration `k`), run the
attempt, and apply the `attempt` context manager's error
classification: network errors and 5xx statuses back off
`backoff_seconds k` and continue the loop; other statuses raise
`StreamLogError`; a raised `StreamLogError` propagates. -/
def attempts_loop {T : Type} (outcomes : Nat → AttemptOutcome T) (elapsedAt : Nat → ℚ)
    (timeoutSecs : ℚ) : Nat → Nat → DriverRun T
  | 0, _ => ⟨[], [], 0, .tooManyRetries⟩
  | remaining + 1, k =>
    if timeoutSecs < elapsedAt k then ⟨[], [], 0, .timedOut⟩
    else
      match outcomes k with
      | .completed evs => ⟨evs, [], 1, .success⟩
      | .netError evs =>
        let rest := attempts_loop outcomes elapsedAt timeoutSecs remaining (k + 1)
        ⟨evs ++ rest.events, backoff_seconds k :: rest.backoffSleeps,
          rest.attemptsMade + 1, rest.result⟩
      | .httpStatusError evs status bodyText =>
        if 500 ≤ status then
          let rest := attempts_loop outcomes elapsedAt timeoutSecs remaining (k + 1)
          ⟨evs ++ rest.events, backoff_seconds k :: rest.backoffSleeps,
            rest.attemptsMade + 1, rest.result⟩
        else
          ⟨evs, [], 1, .streamLogError (http_error_message status bodyText)⟩
      | .streamLogRaise evs msg => ⟨evs, [], 1, .streamLogError msg⟩

/-- A full run of the `attempts(total_attempts, timeout)` wrapper. -/
def attempts_run {T : Type} (outcomes : Nat → AttemptOutcome T) (elapsedAt : Nat → ℚ)
    (timeoutSecs : ℚ) (total_attempts : Nat) : DriverRun T :=
  attempts_loop outcomes elapsedAt timeoutSecs total_attempts 0

/-- Transient outcomes: the ones the `attempt` context manager swallows
after a backoff sleep (network-layer errors and HTTP statuses ≥ 500). -/
def AttemptOutcome.isTransient {T : Type} : AttemptOutcome T → Bool
  | .netError _ => true
  | .httpStatusError _ status _ => decide (500 ≤ status)
  | _ => false

/-- Result of the fully decorated `stream_build_logs`: as
`DriverResult`, plus the model artefact of a script running out of
connections inside an attempt. -/
inductive BuildRunResult where
  | success
  | streamLogError (msg : String)
  | timedOut
  | tooManyRetries
  | modelScriptEnded
deriving DecidableEq

/-- Trace of the fully decorated `stream_build_logs`: the requests of
each attempt in order (each with its `last_id` parameter), the events
yielded to the caller, the driver's backoff sleeps (seconds), the
in-attempt reconnect sleeps (milliseconds), the number of attempts
entered, and the result. -/
structure BuildRun where
  attemptRequests : List (List (Option String))
  events : List BuildLogLine
  backoffSleeps : List Nat
  reconnectSleepsMs : List Nat
  attemptsMade : Nat
  result : BuildRunResult
deriving DecidableEq

/-- The decorated `stream_build_logs` run against per-attempt connection
scripts (`scripts k` is what the server serves during attempt `k`):
the `attempts` loop where each attempt re-invokes the generator —
`stream_build_logs_attempt`, whose cursor starts at `None` — and
classifies its exit exactly as `attempt` does. -/
def stream_build_logs_run (scripts : Nat → List ConnSpec) (elapsedAt : Nat → ℚ)
    (timeoutSecs : ℚ) : Nat → Nat → BuildRun
  | 0, _ => ⟨[], [], [], [], 0, .tooManyRetries⟩
  | remaining + 1, k =>
    if timeoutSecs < elapsedAt k then ⟨[], [], [], [], 0, .timedOut⟩
    else
      let t := stream_build_logs_attempt (scripts k)
      match t.exit with
      | .terminal =>
        ⟨[t.requests], t.yielded, [], t.reconnectSleepsMs, 1, .success⟩
      | .scriptEnded =>
        ⟨[t.requests], t.yielded, [], t.reconnectSleepsMs, 1, .modelScriptEnded⟩
      | .netError =>
        let rest := stream_build_logs_run scripts elapsedAt timeoutSecs remaining (k + 1)
        ⟨t.requests :: rest.attemptRequests, t.yielded ++ rest.events,
          backoff_seconds k :: rest.backoffSleeps,
          t.reconnectSleepsMs ++ rest.reconnectSleepsMs,
          rest.attemptsMade + 1, rest.result⟩
      | .httpError status bodyText =>
        if 500 ≤ status then
          let rest := stream_build_logs_run scripts elapsedAt timeoutSecs remaining (k + 1)
          ⟨t.requests :: rest.attemptRequests, t.yielded ++ rest.events,
            backoff_seconds k :: rest.backoffSleeps,
            t.reconnectSleepsMs ++ rest.reconnectSleepsMs,
            rest.attemptsMade + 1, rest.result⟩
        else
          ⟨[t.requests], t.yielded, [], t.reconnectSleepsMs, 1,
            .streamLogError (http_error_message status bodyText)⟩

/-- `APIClient.stream_build_logs` with its `@attempts` decorator and the
default constants. -/
def stream_build_logs (scripts : Nat → List ConnSpec) (elapsedAt : Nat → ℚ) : BuildRun :=
  stream_build_logs_run scripts elapsedAt STREAM_LOGS_TIMEOUT_SECONDS
    STREAM_LOGS_MAX_RETRIES 0

/-- `AppLogEntry`: `timestamp`, `message` and `level`, all strings. -/
structure AppLogEntry where
  timestamp : String
  message : String
  level : String
deriving DecidableEq

/-- `AppLogEntry.model_validate(data)`: the three string fields are
required; extra fields are ignored; anything else is a
`ValidationError` (`none`). -/
def model_validate_app_log_entry (j : JsonValue) : Option AppLogEntry :=
  match j with
  | .obj fields =>
    match getField fields "timestamp", getField fields "message", getField fields "level" with
    | some (.str t), some (.str m), some (.str l) => some ⟨t, m, l⟩
    | _, _, _ => none
  | _ => none

/-- `data.get("type") == s` on a decoded JSON object: true exactly when
the `type` field is present and is the JSON string `s`. -/
def type_field_is (fields : List (String × JsonValue)) (s : String) : Bool :=
  match getField fields "type" with
  | some (.str t) => t == s
  | _ => false

/-- An error escaping the line loop of `stream_app_logs`: the
`raise StreamLogError(data.get("message", "Unknown error"))` for a line
with `type == "error"` (carrying the raised payload), or the
`AttributeError` that `data.get` raises when the decoded line is not a
JSON object. -/
inductive AppStreamError where
  | streamLogRaise (message : JsonValue)
  | attributeError

/-- Result of the line loop of `stream_app_logs`: the entries yielded
(in order) and the error that ended the loop, if any. -/
structure AppLinesResult where
  yielded : List AppLogEntry
  error : Option AppStreamError

/-- The `for line in response.iter_lines()` loop of `stream_app_logs`:
skip blank lines, skip lines that are not valid JSON, skip heartbeats,
raise on `type == "error"` (default message "Unknown error" when the
field is missing), otherwise validate into `AppLogEntry` and yield,
skipping lines that fail validation. -/
def process_app_lines : List RawLine → AppLinesResult
  | [] => ⟨[], none⟩
  | .blank :: rest => process_app_lines rest
  | .invalid _ :: rest => process_app_lines rest
  | .json j :: rest =>
    match j with
    | .obj fields =>
      if type_field_is fields "heartbeat" then
        process_app_lines rest
      else if type_field_is fields "error" then
        ⟨[], some (.streamLogRaise ((getField fields "message").getD (.str "Unknown error")))⟩
      else
        match model_validate_app_log_entry (.obj fields) with
        | some entry =>
          let r := process_app_lines rest
          ⟨entry :: r.yielded, r.error⟩
        | none => process_app_lines rest
    | _ => ⟨[], some .attributeError⟩

/-- The items an attempt yielded before finishing or raising. -/
def AttemptOutcome.events {T : Type} : AttemptOutcome T → List T
  | .completed evs => evs
  | .netError evs => evs
  | .httpStatusError evs _ _ => evs
  | .streamLogRaise evs _ => evs

/-! Theorems. -/

/-- One step of the `attempts` loop on a transient failure: the attempt's
events are forwarded, one backoff sleep of `backoff_seconds k` happens,
and the loop continues with attempt `k + 1`. -/
theorem attempts_loop_transient_step {T : Type} (outcomes : Nat → AttemptOutcome T)
    (elapsedAt : Nat → ℚ) (timeoutSecs : ℚ) (remaining k : Nat)
    (htr : (outcomes k).isTransient = true) (hel : elapsedAt k ≤ timeoutSecs) :
    attempts_loop outcomes elapsedAt timeoutSecs (remaining + 1) k =
      ⟨(outcomes k).events ++
          (attempts_loop outcomes elapsedAt timeoutSecs remaining (k + 1)).events,
        backoff_seconds k ::
          (attempts_loop outcomes elapsedAt timeoutSecs remaining (k + 1)).backoffSleeps,
        (attempts_loop outcomes elapsedAt timeoutSecs remaining (k + 1)).attemptsMade + 1,
        (attempts_loop outcomes elapsedAt timeoutSecs remaining (k + 1)).result⟩ := by
  cases h : outcomes k with
  | completed evs => rw [h] at htr; simp [AttemptOutcome.isTransient] at htr
  | netError evs =>
    simp only [attempts_loop]
    rw [if_neg (not_lt.mpr hel), h]
    rfl
  | httpStatusError evs status bodyText =>
    rw [h] at htr
    simp only [AttemptOutcome.isTransient, decide_eq_true_eq] at htr
    simp only [attempts_loop]
    rw [if_neg (not_lt.mpr hel), h]
    simp only [if_pos htr]
    rfl
  | streamLogRaise evs msg => rw [h] at htr; simp [AttemptOutcome.isTransient] at htr

/-- C8: the build-log line parser is total (it is a Lean function into
`Option`, so it never raises): the line
`{"type": "message", "message": "x", "id": "5"}` parses to the message
event with text `"x"` and id `"5"`; an unknown discriminator
(`{"type": "bogus"}`), invalid JSON text, a message-typed line missing
its `message` field, a line missing the discriminator, and a blank line
all parse to `none`. -/
theorem c8_parser_total :
    parse_log_line (.json (.obj
        [("type", .str "message"), ("message", .str "x"), ("id", .str "5")])) =
      some (.message ⟨"x", some "5"⟩) ∧
    parse_log_line (.json (.obj [("type", .str "bogus")])) = none ∧
    parse_log_line (.invalid "not valid json") = none ∧
    parse_log_line (.json (.obj [("type", .str "message"), ("id", .str "5")])) = none ∧
    parse_log_line (.json (.obj [("message", .str "x")])) = none ∧
    parse_log_line .blank = none := by
  exact ⟨rfl, rfl, rfl, rfl, rfl, rfl⟩

/-- C9: in the app-log line loop, a heartbeat line yields nothing and
raises nothing; an error line raises a `StreamLogError` carrying its
`message` field (`"boom"`), or `"Unknown error"` when the field is
missing, and yields nothing; a JSON line missing required `AppLogEntry`
fields is skipped without raising (a later valid line is still
yielded). -/
theorem c9_app_log_lines :
    process_app_lines [.json (.obj [("type", .str "heartbeat")])] = ⟨[], none⟩ ∧
    process_app_lines [.json (.obj [("type", .str "error"), ("message", .str "boom")])] =
      ⟨[], some (.streamLogRaise (.str "boom"))⟩ ∧
    process_app_lines [.json (.obj [("type", .str "error")])] =
      ⟨[], some (.streamLogRaise (.str "Unknown error"))⟩ ∧
    process_app_lines
        [.json (.obj [("timestamp", .str "t")]),
         .json (.obj [("timestamp", .str "t"), ("message", .str "m"), ("level", .str "info")])] =
      ⟨[⟨"t", "m", "info"⟩], none⟩ := by
  exact ⟨rfl, rfl, rfl, rfl⟩

/-- C10: an empty-string id is treated exactly like an absent id: the
cursor update ignores `id = ""` and `id = None`; the `last_id` request
parameter is present if and only if the cursor is a non-empty string;
and in a stream where the only id seen is `""`, the reconnect request
after a `timeout` event carries no `last_id` parameter. -/
theorem c10_empty_id :
    (∀ c : Option String, update_last_id c (some "") = c) ∧
    (∀ c : Option String, update_last_id c none = c) ∧
    (∀ c : Option String, params_for c ≠ none ↔ ∃ s, c = some s ∧ s ≠ "") ∧
    (stream_build_logs_attempt
        [⟨200, none, [message_line "a" (some ""), generic_line "timeout" none]⟩,
         ⟨200, none, [generic_line "complete" none]⟩]).requests = [none, none] := by
  refine ⟨fun c => rfl, fun c => rfl, ?_, by decide⟩
  intro c
  match c with
  | none => simp [params_for, truthy]
  | some s =>
    by_cases h : s = ""
    · subst h; simp [params_for, truthy, String.isEmpty_iff]
    · simp [params_for, truthy, String.isEmpty_iff, h]

/-- Witness for C10 at a concrete input. -/
theorem c10_witness : update_last_id (some "7") (some "") = some "7" :=
  c10_empty_id.1 (some "7")

/-- C2, counterexample: in one attempt, after a message with id `"7"`
and then a message with the lower id `"3"`, the reconnect request after
a `timeout` carries `last_id = "3"` — the cursor was moved backward,
contradicting the claim that it is never rewound. -/
theorem c2_counterexample :
    (stream_build_logs_attempt
        [⟨200, none, [message_line "a" (some "7"), message_line "b" (some "3"),
            generic_line "timeout" none]⟩,
         ⟨200, none, [generic_line "complete" none]⟩]).requests = [none, some "3"] ∧
    (stream_build_logs_attempt
        [⟨200, none, [message_line "a" (some "7"), message_line "b" (some "3"),
            generic_line "timeout" none]⟩,
         ⟨200, none, [generic_line "complete" none]⟩]).requests ≠ [none, some "7"] := by
  exact ⟨by decide, by decide⟩

/-- C2, amended: the cursor is set to the most recently observed truthy
id, regardless of ordering — any non-empty id overwrites the cursor, so
an out-of-order lower id does move the cursor backward; a reconnect
request carries the most recently observed id: `"7"` when `"7"` was the
last id seen, `"3"` when the lower `"3"` arrived after `"7"`. -/
theorem c2_amended :
    (∀ (c : Option String) (s : String), s ≠ "" → update_last_id c (some s) = some s) ∧
    (stream_build_logs_attempt
        [⟨200, none, [message_line "a" (some "7"), generic_line "timeout" none]⟩,
         ⟨200, none, [generic_line "complete" none]⟩]).requests = [none, some "7"] ∧
    (stream_build_logs_attempt
        [⟨200, none, [message_line "a" (some "7"), message_line "b" (some "3"),
            generic_line "timeout" none]⟩,
         ⟨200, none, [generic_line "failed" none]⟩]).requests = [none, some "3"] := by
  refine ⟨?_, by decide, by decide⟩
  intro c s hs
  simp [update_last_id, truthy, String.isEmpty_iff, hs]

/-- Witness for C2's amended theorem at a concrete input. -/
theorem c2_witness : update_last_id (some "7") (some "3") = some "3" :=
  c2_amended.1 (some "7") "3" (by decide)

/-- C3, counterexample: with `totalAttempts = 3` and every attempt
failing with a network error, the driver raises `TooManyRetriesError`
after exactly 3 attempts, but it performs three backoff sleeps
(1 s, 2 s, 4 s) — one after each failed attempt, including the final
one — not the claimed two. -/
theorem c3_counterexample :
    (attempts_run (fun _ => AttemptOutcome.netError ([] : List Nat)) (fun _ => 0) 300
        3).backoffSleeps = [1, 2, 4] ∧
    (attempts_run (fun _ => AttemptOutcome.netError ([] : List Nat)) (fun _ => 0) 300
        3).backoffSleeps ≠ [1, 2] := by
  exact ⟨by decide, by decide⟩

/-- C3, amended: with `totalAttempts = 3`, if every attempt fails with a
transient (network-layer or 5xx) error and the wall-clock budget is
never exceeded, the driver raises `TooManyRetriesError` after exactly 3
attempts and performs exactly 3 backoff sleeps, of durations
`min(2^0, 30) = 1`, `min(2^1, 30) = 2` and `min(2^2, 30) = 4` seconds —
one after each failed attempt, including the final one. -/
theorem c3_amended {T : Type} (outcomes : Nat → AttemptOutcome T) (elapsedAt : Nat → ℚ)
    (timeoutSecs : ℚ)
    (htr : ∀ k, k < 3 → (outcomes k).isTransient = true)
    (hel : ∀ k, k < 3 → elapsedAt k ≤ timeoutSecs) :
    (attempts_run outcomes elapsedAt timeoutSecs 3).result = .tooManyRetries ∧
    (attempts_run outcomes elapsedAt timeoutSecs 3).attemptsMade = 3 ∧
    (attempts_run outcomes elapsedAt timeoutSecs 3).backoffSleeps =
      [backoff_seconds 0, backoff_seconds 1, backoff_seconds 2] ∧
    backoff_seconds 0 = 1 ∧ backoff_seconds 1 = 2 ∧ backoff_seconds 2 = 4 := by
  have s0 := attempts_loop_transient_step outcomes elapsedAt timeoutSecs 2 0
    (htr 0 (by omega)) (hel 0 (by omega))
  have s1 := attempts_loop_transient_step outcomes elapsedAt timeoutSecs 1 1
    (htr 1 (by omega)) (hel 1 (by omega))
  have s2 := attempts_loop_transient_step outcomes elapsedAt timeoutSecs 0 2
    (htr 2 (by omega)) (hel 2 (by omega))
  have base : attempts_loop outcomes elapsedAt timeoutSecs 0 3 =
      ⟨[], [], 0, .tooManyRetries⟩ := rfl
  refine ⟨?_, ?_, ?_, rfl, rfl, rfl⟩ <;>
    simp [attempts_run, s0, s1, s2, base]

/-- Witness for C3's amended theorem at a concrete input. -/
theorem c3_witness :
    (attempts_run (fun _ => AttemptOutcome.netError ([0] : List Nat)) (fun _ => 0) 300
        3).result = .tooManyRetries ∧
    (attempts_run (fun _ => AttemptOutcome.netError ([0] : List Nat)) (fun _ => 0) 300
        3).attemptsMade = 3 ∧
    (attempts_run (fun _ => AttemptOutcome.netError ([0] : List Nat)) (fun _ => 0) 300
        3).backoffSleeps = [backoff_seconds 0, backoff_seconds 1, backoff_seconds 2] ∧
    backoff_seconds 0 = 1 ∧ backoff_seconds 1 = 2 ∧ backoff_seconds 2 = 4 :=
  c3_amended (fun _ => AttemptOutcome.netError ([0] : List Nat)) (fun _ => 0) 300
    (by decide) (by intro k _; norm_num)

/-- C4, counterexample: a connection that delivers `timeout`, then
`message("hi")`, then `complete` yields nothing at all — the `timeout`
event breaks out of the line loop, discarding the rest of that
connection's lines — contradicting the claim that the message and
complete events are yielded. -/
theorem c4_counterexample :
    (stream_build_logs_attempt
        [⟨200, none, [generic_line "timeout" none, message_line "hi" none,
            generic_line "complete" none]⟩,
         ⟨200, none, [generic_line "timeout" none, message_line "hi" none,
            generic_line "complete" none]⟩]).yielded = [] ∧
    (stream_build_logs_attempt
        [⟨200, none, [generic_line "timeout" none, message_line "hi" none,
            generic_line "complete" none]⟩,
         ⟨200, none, [generic_line "timeout" none, message_line "hi" none,
            generic_line "complete" none]⟩]).yielded ≠
      [.message ⟨"hi", none⟩, .generic ⟨.complete, none⟩] := by
  exact ⟨by decide, by decide⟩

/-- C4, amended: a `timeout` event ends the processing of its connection
(any lines after it in the same connection are discarded) and triggers a
reconnect that waits the fixed 500 ms, not the exponential backoff; for
a source whose first connection emits `timeout` and whose reconnected
connection emits `message("hi")` then `complete`, the stream yields
exactly the message event followed by the complete event, with exactly
one reconnect, a single 500 ms sleep, zero driver backoff sleeps and a
single driver attempt. -/
theorem c4_amended :
    (stream_build_logs
        (fun k => if k = 0 then
            [⟨200, none, [generic_line "timeout" none]⟩,
             ⟨200, none, [message_line "hi" none, generic_line "complete" none]⟩]
          else []) (fun _ => 0)).events =
      [.message ⟨"hi", none⟩, .generic ⟨.complete, none⟩] ∧
    (stream_build_logs
        (fun k => if k = 0 then
            [⟨200, none, [generic_line "timeout" none]⟩,
             ⟨200, none, [message_line "hi" none, generic_line "complete" none]⟩]
          else []) (fun _ => 0)).reconnectSleepsMs = [500] ∧
    (stream_build_logs
        (fun k => if k = 0 then
            [⟨200, none, [generic_line "timeout" none]⟩,
             ⟨200, none, [message_line "hi" none, generic_line "complete" none]⟩]
          else []) (fun _ => 0)).backoffSleeps = [] ∧
    (stream_build_logs
        (fun k => if k = 0 then
            [⟨200, none, [generic_line "timeout" none]⟩,
             ⟨200, none, [message_line "hi" none, generic_line "complete" none]⟩]
          else []) (fun _ => 0)).attemptsMade = 1 ∧
    (stream_build_logs
        (fun k => if k = 0 then
            [⟨200, none, [generic_line "timeout" none]⟩,
             ⟨200, none, [message_line "hi" none, generic_line "complete" none]⟩]
          else []) (fun _ => 0)).result = .success := by
  exact ⟨by decide, by decide, by decide, by decide, by decide⟩

/-- C1, counterexample: attempt 0 observes a message with id `"7"` and
then raises a transient network error (connection closed without a
terminal event); the driver retries, but the new attempt's first
connection request carries no `last_id` parameter — the cursor was reset
to `None` by the fresh generator call, contradicting the claim that the
cursor is preserved across retries. -/
theorem c1_counterexample :
    (stream_build_logs
        (fun k => if k = 0 then [⟨200, none, [message_line "a" (some "7")]⟩]
          else if k = 1 then [⟨200, none, [generic_line "complete" none]⟩] else [])
        (fun _ => 0)).attemptsMade = 2 ∧
    (stream_build_logs
        (fun k => if k = 0 then [⟨200, none, [message_line "a" (some "7")]⟩]
          else if k = 1 then [⟨200, none, [generic_line "complete" none]⟩] else [])
        (fun _ => 0)).events.head? = some (.message ⟨"a", some "7"⟩) ∧
    (stream_build_logs
        (fun k => if k = 0 then [⟨200, none, [message_line "a" (some "7")]⟩]
          else if k = 1 then [⟨200, none, [generic_line "complete" none]⟩] else [])
        (fun _ => 0)).attemptRequests = [[none], [none]] ∧
    (stream_build_logs
        (fun k => if k = 0 then [⟨200, none, [message_line "a" (some "7")]⟩]
          else if k = 1 then [⟨200, none, [generic_line "complete" none]⟩] else [])
        (fun _ => 0)).attemptRequests ≠ [[none], [some "7"]] := by
  exact ⟨by decide, by decide, by decide, by decide⟩

/-- C1, amended: the cursor is not preserved across retry attempts of
the driver: every retry re-invokes the generator, which starts with
`last_id = None`, so the first connection request of every attempt
carries no `last_id` parameter regardless of ids observed earlier; the
cursor is forwarded only across `timeout`-driven reconnects within a
single attempt (after observing id `"7"` and a `timeout`, the reconnect
request of the same attempt carries `last_id = "7"`). -/
theorem c1_amended :
    (∀ (c : ConnSpec) (rest : List ConnSpec),
      (stream_build_logs_attempt (c :: rest)).requests.head? = some none) ∧
    (stream_build_logs_attempt
        [⟨200, none, [message_line "a" (some "7"), generic_line "timeout" none]⟩,
         ⟨200, none, [generic_line "complete" none]⟩]).requests = [none, some "7"] := by
  refine ⟨?_, by decide⟩
  intro c rest
  simp only [stream_build_logs_attempt, run_build_stream]
  by_cases hs : 400 ≤ c.status
  · rw [if_pos hs]
    rfl
  · rw [if_neg hs]
    cases hpl : process_lines none c.lines with
    | mk lid y ex => cases ex <;> rfl

/-- C5: exactly one terminal event ends a build-log stream.  (i) When a
parsed line is a `complete` or `failed` event, the line loop yields
exactly that event and returns at once — later lines of the connection
are never read.  (ii) A run of the reconnect loop that ends in a
terminal event is unchanged by any further scripted connections — no
reconnect happens after the terminal event.  (iii) When an attempt's
generator completes normally, the driver returns successfully after
that single attempt, with no backoff sleeps and no further attempts,
regardless of retries remaining. -/
theorem c5_terminal_ends_stream :
    (∀ (cursor : Option String) (l : RawLine) (post : List RawLine) (ev : BuildLogLine),
      parse_log_line l = some ev →
      ev.type = "complete" ∨ ev.type = "failed" →
      process_lines cursor (l :: post) =
        ⟨update_last_id cursor ev.id, [ev], .terminal⟩) ∧
    (∀ (cursor : Option String) (script extra : List ConnSpec),
      (run_build_stream cursor script).exit = .terminal →
      run_build_stream cursor (script ++ extra) = run_build_stream cursor script) ∧
    (∀ (T : Type) (outcomes : Nat → AttemptOutcome T) (elapsedAt : Nat → ℚ)
        (timeoutSecs : ℚ) (remaining k : Nat) (evs : List T),
      elapsedAt k ≤ timeoutSecs →
      outcomes k = .completed evs →
      attempts_loop outcomes elapsedAt timeoutSecs (remaining + 1) k =
        ⟨evs, [], 1, .success⟩) := by
  refine ⟨?_, ?_, ?_⟩
  · intro cursor l post ev hp ht
    rcases ht with h | h <;> simp [process_lines, hp, h]
  · intro cursor script extra h
    induction script generalizing cursor with
    | nil => simp [run_build_stream] at h
    | cons c rest ih =>
      by_cases hs : 400 ≤ c.status
      · simp only [run_build_stream, if_pos hs] at h
        exact BuildExit.noConfusion h
      · cases hpl : process_lines cursor c.lines with
        | mk lid y ex =>
          cases ex with
          | terminal =>
            simp only [List.cons_append, run_build_stream, if_neg hs, hpl]
          | timeoutBreak =>
            simp only [run_build_stream, if_neg hs, hpl] at h
            simp only [List.cons_append, run_build_stream, if_neg hs, hpl, List.append_eq]
            rw [ih lid h]
          | exhausted =>
            simp only [run_build_stream, if_neg hs, hpl] at h
            exact BuildExit.noConfusion h
  · intro T outcomes elapsedAt timeoutSecs remaining k evs h1 h2
    simp only [attempts_loop, h2]
    rw [if_neg (not_lt.mpr h1)]

/-- Witness for C5 at concrete inputs. -/
theorem c5_witness :
    process_lines none [generic_line "complete" (some "9"), message_line "zzz" none] =
      ⟨some "9", [.generic ⟨.complete, some "9"⟩], .terminal⟩ ∧
    run_build_stream none
        ([⟨200, none, [generic_line "complete" none]⟩] ++ [⟨500, none, []⟩]) =
      run_build_stream none [⟨200, none, [generic_line "complete" none]⟩] ∧
    attempts_loop (fun _ => AttemptOutcome.completed ([7] : List Nat)) (fun _ => 0) 300
        (2 + 1) 0 = ⟨[7], [], 1, .success⟩ :=
  ⟨c5_terminal_ends_stream.1 none (generic_line "complete" (some "9"))
      [message_line "zzz" none] (.generic ⟨.complete, some "9"⟩) rfl (Or.inl rfl),
   c5_terminal_ends_stream.2.1 none _ _ (by decide),
   c5_terminal_ends_stream.2.2 Nat _ _ _ 2 0 [7] (by norm_num) rfl⟩

/-- C6: an attempt failing with an HTTP status in [400, 499] is fatal:
the driver raises a `StreamLogError` wrapping the response body text
(or a placeholder when the body is unreadable) immediately after that
attempt, with zero backoff sleeps and no further attempts; the wrapped
message carries the body text when readable and the placeholder
otherwise. -/
theorem c6_fatal_client_error :
    (∀ (T : Type) (outcomes : Nat → AttemptOutcome T) (elapsedAt : Nat → ℚ)
        (timeoutSecs : ℚ) (remaining k : Nat) (evs : List T) (status : Nat)
        (bodyText : Option String),
      elapsedAt k ≤ timeoutSecs →
      outcomes k = .httpStatusError evs status bodyText →
      400 ≤ status → status ≤ 499 →
      attempts_loop outcomes elapsedAt timeoutSecs (remaining + 1) k =
        ⟨evs, [], 1, .streamLogError (http_error_message status bodyText)⟩) ∧
    http_error_message 404 (some "Not Found") = "HTTP 404: Not Found" ∧
    http_error_message 404 none = "HTTP 404: (response body unavailable)" := by
  refine ⟨?_, rfl, rfl⟩
  intro T outcomes elapsedAt timeoutSecs remaining k evs status bodyText h1 h2 h3 h4
  simp only [attempts_loop, h2]
  rw [if_neg (not_lt.mpr h1), if_neg (by omega : ¬ 500 ≤ status)]

/-- Witness for C6 at a concrete input. -/
theorem c6_witness :
    attempts_run
        (fun _ => AttemptOutcome.httpStatusError ([] : List Nat) 404 (some "Not Found"))
        (fun _ => 0) 300 3 =
      ⟨[], [], 1, .streamLogError (http_error_message 404 (some "Not Found"))⟩ :=
  c6_fatal_client_error.1 Nat _ _ 300 2 0 [] 404 (some "Not Found") (by norm_num) rfl
    (by omega) (by omega)

/-- C7: the driver enforces a cumulative wall-clock budget across all
attempts: when the elapsed time at the start of an attempt exceeds the
budget, the driver fails at once with the timed-out error, making zero
further attempts (that attempt is not entered); the default budget
`STREAM_LOGS_TIMEOUT` is 5 minutes, i.e. 300 seconds. -/
theorem c7_timeout_budget :
    (∀ (T : Type) (outcomes : Nat → AttemptOutcome T) (elapsedAt : Nat → ℚ)
        (timeoutSecs : ℚ) (remaining k : Nat),
      timeoutSecs < elapsedAt k →
      attempts_loop outcomes elapsedAt timeoutSecs (remaining + 1) k =
        ⟨[], [], 0, .timedOut⟩) ∧
    STREAM_LOGS_TIMEOUT_SECONDS = 300 := by
  refine ⟨?_, rfl⟩
  intro T outcomes elapsedAt timeoutSecs remaining k h
  simp only [attempts_loop]
  rw [if_pos h]

/-- Witness for C7 at a concrete input. -/
theorem c7_witness :
    attempts_run (fun _ => AttemptOutcome.netError ([] : List Nat)) (fun _ => 301) 300 3 =
      ⟨[], [], 0, .timedOut⟩ :=
  c7_timeout_budget.1 Nat _ _ 300 2 0 (by norm_num)

end FastapiCloudStreaming
